import Mathlib

/-!
Formal model of the derived-balance computation engine of the hajiedirsErp
repository: real-time inventory quantities (stock/models.py), purchase-order
fulfillment tracking (purchases/models.py), customer ledger balances
(customers/views.py, sales/views.py), credit-card-loan ledgers
(bankloan/models.py) and bank-account ledgers (bankloan/views.py).

Monetary and quantity values (Python Decimal) are modelled as rationals.
Database rows are modelled as Lean structures, tables as lists, and foreign
keys as numeric ids resolved with List.find?.
-/

/-- Lifecycle status of a goods receipt (purchases/models.py,
GoodsReceipt.RECEIPT_STATUS: draft / received / cancelled). -/
inductive ReceiptStatus
  | draft
  | received
  | cancelled
deriving DecidableEq, Repr

/-- Lifecycle status of a sales order (sales order status strings used by
stock/models.py: only 'delivered' orders count against inventory; 'order'
and 'cancel' are the other states named by the spec). -/
inductive SalesOrderStatus
  | order
  | delivered
  | cancel
deriving DecidableEq, Repr

/-- A goods receipt row (purchases/models.py, GoodsReceipt): id, lifecycle
status and receipt date.  Fields not consulted by the engine (receipt
number, notes, totals) are omitted. -/
structure GoodsReceipt where
  id : Nat
  status : ReceiptStatus
  receipt_date : Nat
deriving DecidableEq, Repr

/-- A goods receipt line (purchases/models.py, GoodsReceiptItem): foreign
keys to its parent receipt and to the purchase-order line it fulfils, the
product, an optional warehouse, a quantity and a unit cost. -/
structure GoodsReceiptItem where
  goods_receipt : Nat
  purchase_order_item : Nat
  product : Nat
  warehouse : Option Nat
  quantity : ℚ
  unit_cost : ℚ
deriving DecidableEq, Repr

/-- A sales order row (sales order referenced by stock/models.py): id and
lifecycle status. -/
structure SalesOrder where
  id : Nat
  status : SalesOrderStatus
deriving DecidableEq, Repr

/-- A sales order line (SalesOrderItem as consumed by stock/models.py):
parent order, product, optional warehouse and quantity. -/
structure SalesOrderItem where
  sales_order : Nat
  product : Nat
  warehouse : Option Nat
  quantity : ℚ
deriving DecidableEq, Repr

/-- A purchase order line (purchases/models.py, PurchaseOrderItem): id and
ordered quantity.  The `quantity` field is the ordered quantity, exactly as
in the source model. -/
structure PurchaseOrderItem where
  id : Nat
  quantity : ℚ
deriving DecidableEq, Repr

/-- The transaction-record store the engine aggregates over: the relational
tables touched by stock/models.py and purchases/models.py. -/
structure Db where
  purchase_order_items : List PurchaseOrderItem
  goods_receipts : List GoodsReceipt
  receipt_items : List GoodsReceiptItem
  sales_orders : List SalesOrder
  sales_items : List SalesOrderItem
deriving DecidableEq, Repr

/-- A store with no records at all. -/
def emptyDb : Db := ⟨[], [], [], [], []⟩

/-- Status of the parent goods receipt of a receipt line (the
`goods_receipt__status` join used by the filters in stock/models.py and
purchases/models.py). -/
def receiptStatusOf (db : Db) (rid : Nat) : Option ReceiptStatus :=
  (db.goods_receipts.find? (fun r => r.id == rid)).map (fun r => r.status)

/-- Receipt date of the parent goods receipt of a receipt line (the
`goods_receipt__receipt_date` join used by get_total_stock_value). -/
def receiptDateOf (db : Db) (rid : Nat) : Nat :=
  ((db.goods_receipts.find? (fun r => r.id == rid)).map (fun r => r.receipt_date)).getD 0

/-- Status of the parent sales order of a sales line (the
`sales_order__status` join used by stock/models.py). -/
def orderStatusOf (db : Db) (oid : Nat) : Option SalesOrderStatus :=
  (db.sales_orders.find? (fun o => o.id == oid)).map (fun o => o.status)

/-- Optional warehouse filter of get_realtime_quantity: when no warehouse is
given every line matches; when one is given only lines stored against that
warehouse match (stock/models.py: `if warehouse: filter['warehouse'] =
warehouse`). -/
def warehouseMatch (w : Option Nat) (line_warehouse : Option Nat) : Bool :=
  match w with
  | none => true
  | some x => line_warehouse == some x

/-- Sum of goods-receipt line quantities for a product whose parent receipt
has status received, optionally restricted to one warehouse
(stock/models.py, get_realtime_quantity: `total_purchase_received`). -/
def total_purchase_received (db : Db) (product : Nat) (w : Option Nat) : ℚ :=
  ((db.receipt_items.filter (fun it =>
      it.product == product
        && receiptStatusOf db it.goods_receipt == some ReceiptStatus.received
        && warehouseMatch w it.warehouse)).map (fun it => it.quantity)).sum

/-- Sum of sales-order line quantities for a product whose parent order has
status delivered, optionally restricted to one warehouse (stock/models.py,
get_realtime_quantity: `total_sales_delivered`). -/
def total_sales_delivered (db : Db) (product : Nat) (w : Option Nat) : ℚ :=
  ((db.sales_items.filter (fun it =>
      it.product == product
        && orderStatusOf db it.sales_order == some SalesOrderStatus.delivered
        && warehouseMatch w it.warehouse)).map (fun it => it.quantity)).sum

/-- Real-time on-hand quantity of a product (stock/models.py,
Product.get_realtime_quantity): received purchases minus delivered sales,
clamped at zero with `max(Decimal('0'), stock)`. -/
def get_realtime_quantity (db : Db) (product : Nat) (w : Option Nat) : ℚ :=
  max 0 (total_purchase_received db product w - total_sales_delivered db product w)

/-- Boolean key used to sort received receipt lines by parent receipt date,
most recent first (stock/models.py, get_total_stock_value:
`.order_by('-goods_receipt__receipt_date')`). -/
def receiptDateDesc (db : Db) (a b : GoodsReceiptItem) : Bool :=
  decide (receiptDateOf db b.goods_receipt ≤ receiptDateOf db a.goods_receipt)

/-- The most recent received goods-receipt line for a product, if any
(stock/models.py, get_total_stock_value: `recent_receipts[:1]`). -/
def most_recent_receipt_item (db : Db) (product : Nat) : Option GoodsReceiptItem :=
  ((db.receipt_items.filter (fun it =>
      it.product == product
        && receiptStatusOf db it.goods_receipt == some ReceiptStatus.received)).mergeSort
    (receiptDateDesc db)).head?

/-- Total stock value of a product (stock/models.py,
Product.get_total_stock_value): real-time quantity times the unit cost of
the most recent received receipt line, falling back to the product's
configured cost price when no received line exists. -/
def get_total_stock_value (db : Db) (product : Nat) (cost_price : ℚ) : ℚ :=
  let quantity := get_realtime_quantity db product none
  let unit_cost :=
    match most_recent_receipt_item db product with
    | some it => it.unit_cost
    | none => cost_price
  quantity * unit_cost

/-- The try/except wrapper of Product.get_realtime_quantity
(stock/models.py): the store lookup is the fallible step; any lookup error
is swallowed and the method returns Decimal('0'). -/
def get_realtime_quantity_guarded (fetch : Except String Db) (product : Nat)
    (w : Option Nat) : ℚ :=
  match fetch with
  | Except.ok db => get_realtime_quantity db product w
  | Except.error _ => 0

/-- The try/except wrapper of Product.get_total_stock_value
(stock/models.py): any lookup error is swallowed and the method returns
Decimal('0'). -/
def get_total_stock_value_guarded (fetch : Except String Db) (product : Nat)
    (cost_price : ℚ) : ℚ :=
  match fetch with
  | Except.ok db => get_total_stock_value db product cost_price
  | Except.error _ => 0

/-- C1: for every product and optional warehouse filter, the on-hand
quantity equals the sum of received goods-receipt line quantities minus the
sum of delivered sales-order line quantities (both restricted to the given
warehouse when one is supplied), clamped to be non-negative; it is never
negative even when the raw difference is. -/
theorem get_realtime_quantity_clamped_nonneg (db : Db) (product : Nat) (w : Option Nat) :
    get_realtime_quantity db product w =
      max 0 (total_purchase_received db product w - total_sales_delivered db product w) ∧
    0 ≤ get_realtime_quantity db product w := by
  refine ⟨rfl, ?_⟩
  exact le_max_left 0 _

/-- C9: on-hand quantity and stock value are total functions of the store:
a failed lookup degrades to a returned zero instead of propagating, a
successful lookup computes the pure aggregation, and a store with no
related records yields zero quantity and zero value. -/
theorem stock_reads_degrade_to_zero (e : String) (db : Db) (product : Nat)
    (w : Option Nat) (cost_price : ℚ) :
    get_realtime_quantity_guarded (Except.error e) product w = 0 ∧
    get_total_stock_value_guarded (Except.error e) product cost_price = 0 ∧
    get_realtime_quantity_guarded (Except.ok db) product w = get_realtime_quantity db product w ∧
    get_total_stock_value_guarded (Except.ok db) product cost_price =
      get_total_stock_value db product cost_price ∧
    get_realtime_quantity emptyDb product w = 0 ∧
    get_total_stock_value emptyDb product cost_price = 0 := by
  refine ⟨rfl, rfl, rfl, rfl, ?_, ?_⟩
  · simp [get_realtime_quantity, total_purchase_received, total_sales_delivered, emptyDb]
  · simp [get_total_stock_value, get_realtime_quantity, total_purchase_received,
      total_sales_delivered, most_recent_receipt_item, emptyDb]

/-- Total quantity received against a purchase-order line: the sum of
goods-receipt line quantities referencing it whose parent receipt has
status received (purchases/models.py,
PurchaseOrderItem.get_received_quantity). -/
def get_received_quantity (db : Db) (poi : PurchaseOrderItem) : ℚ :=
  ((db.receipt_items.filter (fun it =>
      it.purchase_order_item == poi.id
        && receiptStatusOf db it.goods_receipt == some ReceiptStatus.received)).map
    (fun it => it.quantity)).sum

/-- Remaining quantity to be received against a purchase-order line
(purchases/models.py, PurchaseOrderItem.get_remaining_quantity):
`max(Decimal('0'), self.quantity - received)`. -/
def get_remaining_quantity (db : Db) (poi : PurchaseOrderItem) : ℚ :=
  max 0 (poi.quantity - get_received_quantity db poi)

/-- Whether a purchase-order line is fully received (purchases/models.py,
PurchaseOrderItem.is_fully_received). -/
def is_fully_received (db : Db) (poi : PurchaseOrderItem) : Bool :=
  decide (poi.quantity ≤ get_received_quantity db poi)

/-- Confirm a goods receipt (purchases/models.py,
GoodsReceipt.confirm_receipt): a draft receipt becomes received and the
method returns True; any other status is left unchanged and it returns
False. -/
def confirm_receipt (r : GoodsReceipt) : GoodsReceipt × Bool :=
  if r.status == ReceiptStatus.draft then ({ r with status := ReceiptStatus.received }, true)
  else (r, false)

/-- Cancel a goods receipt (purchases/models.py,
GoodsReceipt.cancel_receipt): a received receipt becomes cancelled and the
method returns True; any other status is left unchanged and it returns
False. -/
def cancel_receipt (r : GoodsReceipt) : GoodsReceipt × Bool :=
  if r.status == ReceiptStatus.received then ({ r with status := ReceiptStatus.cancelled }, true)
  else (r, false)

/-- Store update performed by confirm_goods_receipt (purchases/views.py):
the receipt with the given id is confirmed in place. -/
def confirm_receipt_db (db : Db) (rid : Nat) : Db :=
  { db with goods_receipts :=
      db.goods_receipts.map (fun r => if r.id == rid then (confirm_receipt r).1 else r) }

/-- Store update performed by cancel_goods_receipt (purchases/views.py):
the receipt with the given id is cancelled in place. -/
def cancel_receipt_db (db : Db) (rid : Nat) : Db :=
  { db with goods_receipts :=
      db.goods_receipts.map (fun r => if r.id == rid then (cancel_receipt r).1 else r) }

/-- Appending a new goods receipt row to the store (GoodsReceiptCreateView
creates receipts in status draft). -/
def add_goods_receipt (db : Db) (r : GoodsReceipt) : Db :=
  { db with goods_receipts := db.goods_receipts ++ [r] }

/-- Appending a new goods receipt line to the store. -/
def add_receipt_item (db : Db) (it : GoodsReceiptItem) : Db :=
  { db with receipt_items := db.receipt_items ++ [it] }

/-- Write-time validation of a new goods receipt line (purchases/forms.py,
GoodsReceiptItemForm.clean): the line's quantity must not exceed the
referenced order line's remaining quantity at creation time.  Remaining
quantity counts only receipts already in status received. -/
def clean_receipt_item (db : Db) (it : GoodsReceiptItem) : Bool :=
  match db.purchase_order_items.find? (fun p => p.id == it.purchase_order_item) with
  | some poi => decide (it.quantity ≤ get_remaining_quantity db poi)
  | none => false

/-- An operation on one goods receipt: confirm or cancel. -/
inductive ReceiptOp
  | confirm
  | cancel
deriving DecidableEq, Repr

/-- Effect of a confirm/cancel operation on a receipt's row. -/
def apply_receipt_op (o : ReceiptOp) (r : GoodsReceipt) : GoodsReceipt :=
  match o with
  | ReceiptOp.confirm => (confirm_receipt r).1
  | ReceiptOp.cancel => (cancel_receipt r).1

/-- C2 counterexample: an order line of 100 with two draft receipts of 60
each, both of which pass the collaborator's write-time validation (each is
checked against a remaining quantity of 100 because draft receipts do not
count), then both confirmed.  Received becomes 120 and remaining 0, so
receivedQuantity + remainingQuantity = 120 ≠ 100 = orderedQuantity. -/
theorem receipt_overshoot_breaks_conservation :
    (let poi : PurchaseOrderItem := ⟨1, 100⟩
    let db0 : Db := ⟨[poi], [], [], [], []⟩
    let r1 : GoodsReceipt := ⟨1, ReceiptStatus.draft, 10⟩
    let i1 : GoodsReceiptItem := ⟨1, 1, 7, none, 60, 5⟩
    let r2 : GoodsReceipt := ⟨2, ReceiptStatus.draft, 11⟩
    let i2 : GoodsReceiptItem := ⟨2, 1, 7, none, 60, 5⟩
    let db1 := add_goods_receipt db0 r1
    let db2 := add_receipt_item db1 i1
    let db3 := add_goods_receipt db2 r2
    let db4 := add_receipt_item db3 i2
    let db5 := confirm_receipt_db db4 1
    let db6 := confirm_receipt_db db5 2
    clean_receipt_item db1 i1 = true ∧
    clean_receipt_item db3 i2 = true ∧
    get_received_quantity db6 poi = 120 ∧
    get_received_quantity db6 poi + get_remaining_quantity db6 poi ≠ poi.quantity) := by
  refine ⟨?_, ?_, ?_, ?_⟩ <;>
    · simp [clean_receipt_item, get_received_quantity, get_remaining_quantity,
        add_goods_receipt, add_receipt_item, confirm_receipt_db, confirm_receipt,
        receiptStatusOf, List.find?]
      norm_num

/-- C2 amended: for every purchase-order line,
receivedQuantity + remainingQuantity = orderedQuantity holds whenever
receivedQuantity ≤ orderedQuantity. -/
theorem received_plus_remaining_eq_ordered (db : Db) (poi : PurchaseOrderItem)
    (h : get_received_quantity db poi ≤ poi.quantity) :
    get_received_quantity db poi + get_remaining_quantity db poi = poi.quantity := by
  unfold get_remaining_quantity
  rw [max_eq_right (by linarith)]
  ring

/-- Concrete store for the C2 witness: one order line of 100 and one
received receipt of 70 against it. -/
def dbC2 : Db :=
  { purchase_order_items := [{ id := 1, quantity := 100 }],
    goods_receipts := [{ id := 1, status := ReceiptStatus.received, receipt_date := 10 }],
    receipt_items := [⟨1, 1, 7, none, 70, 5⟩],
    sales_orders := [],
    sales_items := [] }

/-- Witness for the amended C2 at a concrete store: received 70 of 100, so
70 + 30 = 100. -/
theorem received_plus_remaining_eq_ordered_witness :
    get_received_quantity dbC2 { id := 1, quantity := 100 } ≤ 100 ∧
    get_received_quantity dbC2 { id := 1, quantity := 100 } +
      get_remaining_quantity dbC2 { id := 1, quantity := 100 } = 100 := by
  have h : get_received_quantity dbC2 { id := 1, quantity := 100 } ≤ 100 := by
    simp [get_received_quantity, dbC2, receiptStatusOf, List.find?]
    norm_num
  exact ⟨h, received_plus_remaining_eq_ordered dbC2 { id := 1, quantity := 100 } h⟩

/-- C10 counterexample: via the pair of operations a draft receipt does
become cancelled: confirming it yields status received, after which
cancelling yields status cancelled. -/
theorem draft_becomes_cancelled_via_ops :
    (let r : GoodsReceipt := ⟨1, ReceiptStatus.draft, 0⟩
    r.status = ReceiptStatus.draft ∧
    ((cancel_receipt (confirm_receipt r).1).1).status = ReceiptStatus.cancelled) := by
  exact ⟨rfl, rfl⟩

/-- C10 amended: confirm_receipt sets status to received and returns True
exactly on a draft receipt and otherwise returns False leaving the receipt
unchanged; cancel_receipt sets status to cancelled and returns True exactly
on a received receipt and otherwise returns False leaving the receipt
unchanged.  Hence a draft receipt can never become cancelled by a single
operation (it must first be confirmed to received), and a cancelled receipt
can never return to received under any sequence of these operations. -/
theorem receipt_status_machine_spec (r : GoodsReceipt) (ops : List ReceiptOp) :
    (r.status = ReceiptStatus.draft →
      confirm_receipt r = ({ r with status := ReceiptStatus.received }, true)) ∧
    (r.status ≠ ReceiptStatus.draft → confirm_receipt r = (r, false)) ∧
    (r.status = ReceiptStatus.received →
      cancel_receipt r = ({ r with status := ReceiptStatus.cancelled }, true)) ∧
    (r.status ≠ ReceiptStatus.received → cancel_receipt r = (r, false)) ∧
    (r.status = ReceiptStatus.draft → ((cancel_receipt r).1).status = ReceiptStatus.draft) ∧
    (r.status = ReceiptStatus.cancelled →
      (ops.foldl (fun s o => apply_receipt_op o s) r).status = ReceiptStatus.cancelled) := by
  obtain ⟨rid, rst, rdate⟩ := r
  refine ⟨?_, ?_, ?_, ?_, ?_, ?_⟩
  · intro h; cases rst <;> simp_all [confirm_receipt]
  · intro h; cases rst <;> simp_all [confirm_receipt]
  · intro h; cases rst <;> simp_all [cancel_receipt]
  · intro h; cases rst <;> simp_all [cancel_receipt]
  · intro h; cases rst <;> simp_all [cancel_receipt]
  · intro h
    subst h
    induction ops generalizing rid rdate with
    | nil => rfl
    | cons o rest ih =>
        cases o <;>
          simpa [apply_receipt_op, confirm_receipt, cancel_receipt] using ih rid rdate

/-- Witness for C10 at concrete receipts: confirming a draft receipt yields
(received, True), and a cancelled receipt stays cancelled under the
sequence confirm-then-cancel. -/
theorem receipt_status_machine_spec_witness :
    confirm_receipt { id := 3, status := ReceiptStatus.draft, receipt_date := 0 } =
      ({ id := 3, status := ReceiptStatus.received, receipt_date := 0 }, true) ∧
    ([ReceiptOp.confirm, ReceiptOp.cancel].foldl (fun s o => apply_receipt_op o s)
        { id := 4, status := ReceiptStatus.cancelled, receipt_date := 0 }).status =
      ReceiptStatus.cancelled := by
  refine ⟨?_, ?_⟩
  · exact (receipt_status_machine_spec
      { id := 3, status := ReceiptStatus.draft, receipt_date := 0 } []).1 rfl
  · exact (receipt_status_machine_spec
      { id := 4, status := ReceiptStatus.cancelled, receipt_date := 0 }
      [ReceiptOp.confirm, ReceiptOp.cancel]).2.2.2.2.2 rfl

/-- Status of a credit-card loan (bankloan/models.py,
CreditCardLoan.STATUS_CHOICES: active / closed). -/
inductive LoanStatus
  | active
  | closed
deriving DecidableEq, Repr

/-- Type of a loan ledger entry (bankloan/models.py,
CreditCardLoanLedger.ENTRY_TYPES: disbursement / payment). -/
inductive LoanEntryType
  | disbursement
  | payment
deriving DecidableEq, Repr

/-- A loan ledger row (bankloan/models.py, CreditCardLoanLedger): entry
type, date and amount. -/
structure CreditCardLoanLedger where
  entry_type : LoanEntryType
  transaction_date : Nat
  payment_amount : ℚ
deriving DecidableEq, Repr

/-- A credit-card loan (bankloan/models.py, CreditCardLoan) together with
its related ledger entries (`ledger_entries`).  The status and closed date
are the derived-then-cached fields written back by refresh_status. -/
structure CreditCardLoan where
  principal_amount : ℚ
  status : LoanStatus
  closed_date : Option Nat
  ledger_entries : List CreditCardLoanLedger
deriving DecidableEq, Repr

/-- Sum of payment_amount over the loan's disbursement entries (the
aggregate inside CreditCardLoan.get_total_disbursed, with the missing-sum
`or Decimal('0.00')` default giving 0 for an empty set). -/
def disbursement_total (loan : CreditCardLoan) : ℚ :=
  ((loan.ledger_entries.filter (fun e => e.entry_type == LoanEntryType.disbursement)).map
    (fun e => e.payment_amount)).sum

/-- Total disbursed on a loan (bankloan/models.py,
CreditCardLoan.get_total_disbursed): the disbursement-entry sum when
positive, otherwise the loan's principal amount. -/
def get_total_disbursed (loan : CreditCardLoan) : ℚ :=
  if 0 < disbursement_total loan then disbursement_total loan else loan.principal_amount

/-- Total paid on a loan (bankloan/models.py,
CreditCardLoan.get_total_paid): sum of payment entries' payment_amount. -/
def get_total_paid (loan : CreditCardLoan) : ℚ :=
  ((loan.ledger_entries.filter (fun e => e.entry_type == LoanEntryType.payment)).map
    (fun e => e.payment_amount)).sum

/-- Outstanding principal (bankloan/models.py,
CreditCardLoan.get_outstanding_principal): disbursed minus paid, floored at
zero. -/
def get_outstanding_principal (loan : CreditCardLoan) : ℚ :=
  if 0 < get_total_disbursed loan - get_total_paid loan then
    get_total_disbursed loan - get_total_paid loan
  else 0

/-- Interest paid beyond principal (bankloan/models.py,
CreditCardLoan.get_total_interest_paid): paid minus disbursed, floored at
zero. -/
def get_total_interest_paid (loan : CreditCardLoan) : ℚ :=
  if 0 < get_total_paid loan - get_total_disbursed loan then
    get_total_paid loan - get_total_disbursed loan
  else 0

/-- Principal actually paid (bankloan/models.py,
CreditCardLoan.get_total_principal_paid): the smaller of paid and
disbursed. -/
def get_total_principal_paid (loan : CreditCardLoan) : ℚ :=
  min (get_total_paid loan) (get_total_disbursed loan)

/-- Status reconciliation (bankloan/models.py,
CreditCardLoan.refresh_status): a loan with zero outstanding that is not
closed becomes closed, setting closed_date to today when absent; a closed
loan with positive outstanding becomes active again, clearing closed_date;
otherwise nothing changes.  `today` stands for timezone.now().date(). -/
def refresh_status (today : Nat) (loan : CreditCardLoan) : CreditCardLoan :=
  if get_outstanding_principal loan ≤ 0 ∧ loan.status ≠ LoanStatus.closed then
    { loan with status := LoanStatus.closed,
                closed_date := some (loan.closed_date.getD today) }
  else if 0 < get_outstanding_principal loan ∧ loan.status = LoanStatus.closed then
    { loan with status := LoanStatus.active, closed_date := none }
  else loan

/-- Posting a ledger entry against a loan (bankloan/views.py,
CreditCardLoanLedgerCreateView.form_valid appends the entry to the loan's
ledger before calling refresh_status). -/
def post_loan_entry (loan : CreditCardLoan) (e : CreditCardLoanLedger) : CreditCardLoan :=
  { loan with ledger_entries := loan.ledger_entries ++ [e] }

/-- Outstanding principal is never negative: it is floored at zero. -/
theorem get_outstanding_principal_nonneg (loan : CreditCardLoan) :
    0 ≤ get_outstanding_principal loan := by
  unfold get_outstanding_principal
  split
  · linarith
  · linarith

/-- C3: for every loan state, outstandingPrincipal + totalPaid −
interestOverpaid = totalDisbursed.  The quantification over all loans
covers every ledger state reachable by posting disbursement and payment
entries in any order. -/
theorem loan_balance_algebra (loan : CreditCardLoan) :
    get_outstanding_principal loan + get_total_paid loan - get_total_interest_paid loan =
      get_total_disbursed loan := by
  unfold get_outstanding_principal get_total_interest_paid
  split <;> split <;> linarith

/-- C4: after refresh_status the loan's status is closed exactly when the
outstanding principal is zero (which refresh_status leaves unchanged, so
the equivalence reads on the reconciled state as well); on the transition
to closed the closed date is set to today when absent (and kept when
present), and on the transition back to active the closed date is
cleared. -/
theorem refresh_status_spec (today : Nat) (loan : CreditCardLoan) :
    ((refresh_status today loan).status = LoanStatus.closed ↔
      get_outstanding_principal loan = 0) ∧
    get_outstanding_principal (refresh_status today loan) =
      get_outstanding_principal loan ∧
    (loan.status ≠ LoanStatus.closed →
      (refresh_status today loan).status = LoanStatus.closed →
      (refresh_status today loan).closed_date = some (loan.closed_date.getD today)) ∧
    (loan.status = LoanStatus.closed →
      (refresh_status today loan).status = LoanStatus.active →
      (refresh_status today loan).closed_date = none) := by
  have hnn := get_outstanding_principal_nonneg loan
  by_cases hz : get_outstanding_principal loan = 0
  · rcases hst : loan.status with _ | _
    · have hr : refresh_status today loan =
          { loan with status := LoanStatus.closed,
                      closed_date := some (loan.closed_date.getD today) } := by
        unfold refresh_status
        rw [if_pos ⟨le_of_eq hz, by rw [hst]; simp⟩]
      refine ⟨by simp [hr, hz], by rw [hr]; rfl, fun _ _ => by simp [hr], fun hc => ?_⟩
      cases hc
    · have hr : refresh_status today loan = loan := by
        unfold refresh_status
        rw [if_neg (by rw [hst]; simp), if_neg (by rw [hz]; simp)]
      refine ⟨by simp [hr, hst, hz], by rw [hr], fun hne _ => absurd rfl hne,
        fun _ hact => ?_⟩
      rw [hr, hst] at hact; cases hact
  · have hpos : 0 < get_outstanding_principal loan := lt_of_le_of_ne hnn (Ne.symm hz)
    rcases hst : loan.status with _ | _
    · have hr : refresh_status today loan = loan := by
        unfold refresh_status
        rw [if_neg (fun hcon => hz (le_antisymm hcon.1 hnn)), if_neg (by rw [hst]; simp)]
      refine ⟨?_, by rw [hr], fun _ hcl => ?_, fun hcl _ => ?_⟩
      · rw [hr, hst]; simp [hz]
      · rw [hr, hst] at hcl; cases hcl
      · cases hcl
    · have hr : refresh_status today loan =
          { loan with status := LoanStatus.active, closed_date := none } := by
        unfold refresh_status
        rw [if_neg (by rw [hst]; simp), if_pos ⟨hpos, hst⟩]
      refine ⟨by rw [hr]; simp [hz], by rw [hr]; rfl, fun hne _ => absurd rfl hne,
        fun _ _ => by simp [hr]⟩
/-- Concrete loan for the C4 witness: principal 10000, payments of 4000 and
6000, still marked active with no closed date. -/
def loanB : CreditCardLoan :=
  { principal_amount := 10000,
    status := LoanStatus.active,
    closed_date := none,
    ledger_entries := [⟨LoanEntryType.payment, 1, 4000⟩, ⟨LoanEntryType.payment, 2, 6000⟩] }

/-- Witness for C4 at a concrete loan: loanB has zero outstanding, so
refresh_status closes it and stamps the closed date with today. -/
theorem refresh_status_spec_witness :
    (refresh_status 5 loanB).status = LoanStatus.closed ∧
    (refresh_status 5 loanB).closed_date = some 5 := by
  have h := refresh_status_spec 5 loanB
  have hout : get_outstanding_principal loanB = 0 := by
    simp [get_outstanding_principal, get_total_disbursed, get_total_paid,
      disbursement_total, loanB]
    norm_num
  have h1 := h.1.mpr hout
  refine ⟨h1, ?_⟩
  have h2 := h.2.2.1 (by simp [loanB]) h1
  simpa [loanB] using h2

/-- Concrete loan for C5's Scenario A: principal 10000 and no ledger
entries at all. -/
def loanA : CreditCardLoan :=
  { principal_amount := 10000,
    status := LoanStatus.active,
    closed_date := none,
    ledger_entries := [] }

/-- C5: totalDisbursed is the sum of disbursement entries when that sum is
positive and falls back to the principal when the sum is non-positive
(including the no-entries case); in particular a loan with principal 10000
and no entries has totalDisbursed 10000 and outstandingPrincipal 10000. -/
theorem total_disbursed_fallback_spec (loan : CreditCardLoan) :
    (0 < disbursement_total loan → get_total_disbursed loan = disbursement_total loan) ∧
    (disbursement_total loan ≤ 0 → get_total_disbursed loan = loan.principal_amount) ∧
    get_total_disbursed loanA = 10000 ∧
    get_outstanding_principal loanA = 10000 := by
  refine ⟨?_, ?_, ?_, ?_⟩
  · intro h; simp [get_total_disbursed, h]
  · intro h
    have : ¬ 0 < disbursement_total loan := not_lt.mpr h
    simp [get_total_disbursed, this]
  · simp [get_total_disbursed, disbursement_total, loanA]
  · simp [get_outstanding_principal, get_total_disbursed, get_total_paid,
      disbursement_total, loanA]

/-- Witness for C5 at the concrete Scenario A loan: its disbursement sum is
zero, so totalDisbursed falls back to the principal. -/
theorem total_disbursed_fallback_spec_witness :
    disbursement_total loanA ≤ 0 ∧ get_total_disbursed loanA = loanA.principal_amount := by
  have h : disbursement_total loanA ≤ 0 := by simp [disbursement_total, loanA]
  exact ⟨h, (total_disbursed_fallback_spec loanA).2.1 h⟩

/-- Transaction type of a customer ledger entry (the five strings branched
on by customers/views.py: 'sale', 'payment', 'opening_balance',
'adjustment' and 'return'; the last is named sales_return here because
`return` is reserved in Lean). -/
inductive TransactionType
  | sale
  | payment
  | opening_balance
  | adjustment
  | sales_return
deriving DecidableEq, Repr

/-- A customer ledger row (CustomerLedger as consumed by
customers/views.py and sales/views.py): type, amount, free-text reference,
invoice text and date. -/
structure CustomerLedgerEntry where
  transaction_type : TransactionType
  amount : ℚ
  reference : String
  invoice_text : String
  transaction_date : Nat
deriving DecidableEq, Repr

/-- One step of the balance recomputation loop
(customers/views.py, CustomerLedgerCreateView.update_customer_balance):
sale and opening_balance add, payment and return subtract, adjustment adds
its possibly negative stored amount. -/
def ledger_step (total : ℚ) (entry : CustomerLedgerEntry) : ℚ :=
  if entry.transaction_type == TransactionType.sale
      || entry.transaction_type == TransactionType.opening_balance then
    total + entry.amount
  else if entry.transaction_type == TransactionType.payment
      || entry.transaction_type == TransactionType.sales_return then
    total - entry.amount
  else if entry.transaction_type == TransactionType.adjustment then
    total + entry.amount
  else total

/-- Recomputed current balance of a party
(customers/views.py, CustomerLedgerCreateView.update_customer_balance):
fold of ledger_step over all of the party's entries starting from zero. -/
def update_customer_balance (entries : List CustomerLedgerEntry) : ℚ :=
  entries.foldl ledger_step 0

/-- Type-signed amount of a ledger entry as the spec states it: sale,
opening_balance and adjustment contribute +amount, payment and return
contribute −amount. -/
def signed_amount (entry : CustomerLedgerEntry) : ℚ :=
  match entry.transaction_type with
  | TransactionType.sale => entry.amount
  | TransactionType.opening_balance => entry.amount
  | TransactionType.adjustment => entry.amount
  | TransactionType.payment => -entry.amount
  | TransactionType.sales_return => -entry.amount

/-- The fold computing the balance distributes over its start value as a
plain sum of type-signed amounts. -/
theorem foldl_ledger_step (entries : List CustomerLedgerEntry) (b : ℚ) :
    entries.foldl ledger_step b = b + (entries.map signed_amount).sum := by
  induction entries generalizing b with
  | nil => simp
  | cons e rest ih =>
      rcases he : e.transaction_type <;>
        · simp [List.foldl, ih, ledger_step, signed_amount, he]
          ring

/-- C6: for every party the recomputed current balance equals the sum of
the type-signed amounts of all its ledger entries: sale, opening_balance
and adjustment entries add their stored amount, payment and return entries
subtract it. -/
theorem update_customer_balance_eq_signed_sum (entries : List CustomerLedgerEntry) :
    update_customer_balance entries = (entries.map signed_amount).sum := by
  unfold update_customer_balance
  rw [foldl_ledger_step]
  ring

/-- Does a ledger entry match the upsert key of
sales/views.py, create_customer_ledger_entry: same reference (the order
number) and transaction type sale?  Customer equality is implicit because a
party's entries are modelled as one list. -/
def sale_entry_matches (order_number : String) (e : CustomerLedgerEntry) : Bool :=
  e.reference == order_number && e.transaction_type == TransactionType.sale

/-- The `.filter(...).first()` lookup of create_customer_ledger_entry. -/
def find_sale_entry (ledger : List CustomerLedgerEntry) (order_number : String) :
    Option CustomerLedgerEntry :=
  ledger.find? (sale_entry_matches order_number)

/-- In-place update of the found ledger entry (sales/views.py,
create_customer_ledger_entry: `existing_entry.amount = ...; .save()`): the
first entry matching the key gets the new amount, invoice text and date;
everything else is untouched. -/
def update_sale_entry (order_number : String) (amount : ℚ) (text : String) (now : Nat) :
    List CustomerLedgerEntry → List CustomerLedgerEntry
  | [] => []
  | e :: es =>
      if sale_entry_matches order_number e then
        { e with amount := amount, invoice_text := text, transaction_date := now } :: es
      else e :: update_sale_entry order_number amount text now es

/-- A customer as the ledger engine sees it: the cached current balance
plus the customer's ledger entries. -/
structure Customer where
  current_balance : ℚ
  ledger : List CustomerLedgerEntry
deriving DecidableEq, Repr

/-- Upsert of the sale ledger entry for an order (sales/views.py,
create_customer_ledger_entry): with update_existing the existing entry
keyed by (customer, order number, type sale) is updated in place and the
cached balance adjusted by new minus old amount; otherwise a new sale entry
is appended and the balance increased by the order total. -/
def create_customer_ledger_entry (c : Customer) (order_number : String)
    (total_amount : ℚ) (text : String) (now : Nat) (update_existing : Bool) : Customer :=
  match (if update_existing then find_sale_entry c.ledger order_number else none) with
  | some entry =>
      { current_balance := c.current_balance - entry.amount + total_amount,
        ledger := update_sale_entry order_number total_amount text now c.ledger }
  | none =>
      { current_balance := c.current_balance + total_amount,
        ledger := c.ledger ++
          [{ transaction_type := TransactionType.sale, amount := total_amount,
             reference := order_number, invoice_text := text, transaction_date := now }] }

/-- Updating the matched entry keeps it in place for the same key: if the
lookup finds an entry, then after update_sale_entry the lookup finds that
same entry carrying the new amount, text and date. -/
theorem find_sale_entry_after_update (ledger : List CustomerLedgerEntry)
    (order_number : String) (amount : ℚ) (text : String) (now : Nat)
    (e : CustomerLedgerEntry) (hfind : find_sale_entry ledger order_number = some e) :
    find_sale_entry (update_sale_entry order_number amount text now ledger) order_number =
      some { e with amount := amount, invoice_text := text, transaction_date := now } := by
  induction ledger with
  | nil => simp [find_sale_entry, List.find?] at hfind
  | cons x xs ih =>
      by_cases hx : sale_entry_matches order_number x
      · have hx' : sale_entry_matches order_number
            { x with amount := amount, invoice_text := text,
                     transaction_date := now } = true := by
          simpa [sale_entry_matches] using hx
        have hex : x = e := by
          simpa [find_sale_entry, List.find?, hx] using hfind
        subst hex
        simp [find_sale_entry, update_sale_entry, List.find?, hx] at hx' ⊢
        simp [hx']
      · have hfind' : find_sale_entry xs order_number = some e := by
          simpa [find_sale_entry, List.find?, hx] using hfind
        have := ih hfind'
        simp [find_sale_entry, update_sale_entry, List.find?, hx] at this ⊢
        exact this

/-- Appending the fresh sale entry makes it findable when nothing matched
before. -/
theorem find_sale_entry_append_fresh (ledger : List CustomerLedgerEntry)
    (order_number : String) (amount : ℚ) (text : String) (now : Nat)
    (hnone : find_sale_entry ledger order_number = none) :
    find_sale_entry (ledger ++
        [{ transaction_type := TransactionType.sale, amount := amount,
           reference := order_number, invoice_text := text, transaction_date := now }])
      order_number =
      some { transaction_type := TransactionType.sale, amount := amount,
             reference := order_number, invoice_text := text, transaction_date := now } := by
  unfold find_sale_entry at hnone ⊢
  rw [List.find?_append, hnone]
  simp [sale_entry_matches]

/-- C7: upserting the sale entry for the same (party, reference, type,
amount) twice leaves the party balance after the second call equal to the
balance after the first call: the second call finds the entry written by
the first, reverses its delta and applies an equal delta instead of
appending a duplicate. -/
theorem ledger_upsert_idempotent (c : Customer) (order_number : String)
    (total_amount : ℚ) (text : String) (now : Nat) :
    (create_customer_ledger_entry
        (create_customer_ledger_entry c order_number total_amount text now true)
        order_number total_amount text now true).current_balance =
      (create_customer_ledger_entry c order_number total_amount text now true).current_balance := by
  cases hfind : find_sale_entry c.ledger order_number with
  | none =>
      have h1 : create_customer_ledger_entry c order_number total_amount text now true =
          { current_balance := c.current_balance + total_amount,
            ledger := c.ledger ++
              [{ transaction_type := TransactionType.sale, amount := total_amount,
                 reference := order_number, invoice_text := text,
                 transaction_date := now }] } := by
        unfold create_customer_ledger_entry
        rw [if_pos rfl, hfind]
      have h2 := find_sale_entry_append_fresh c.ledger order_number total_amount text now hfind
      rw [h1]
      unfold create_customer_ledger_entry
      rw [if_pos rfl]
      simp only [h2]
      ring_nf
  | some e =>
      have h1 : create_customer_ledger_entry c order_number total_amount text now true =
          { current_balance := c.current_balance - e.amount + total_amount,
            ledger := update_sale_entry order_number total_amount text now c.ledger } := by
        unfold create_customer_ledger_entry
        rw [if_pos rfl, hfind]
      have h2 := find_sale_entry_after_update c.ledger order_number total_amount text now e hfind
      rw [h1]
      unfold create_customer_ledger_entry
      rw [if_pos rfl]
      simp only [h2]
      ring_nf

/-- Type of a bank-account ledger entry (deposit / withdrawal, the two
entry types consumed by bankloan/views.py). -/
inductive BankEntryType
  | deposit
  | withdrawal
deriving DecidableEq, Repr

/-- A bank-account ledger row (BankAccountLedger as consumed by
bankloan/views.py): stable id, entry type, amount and date. -/
structure BankAccountLedger where
  id : Nat
  entry_type : BankEntryType
  amount : ℚ
  transaction_date : Nat
deriving DecidableEq, Repr

/-- A bank account (bankloan/models.py, BankAccount) with its related
ledger entries; only the opening balance enters the derived computations. -/
structure BankAccount where
  opening_balance : ℚ
  ledger_entries : List BankAccountLedger
deriving DecidableEq, Repr

/-- Sum of deposit amounts in a list of entries (the `total_deposits`
aggregate of BankAccountLedgerListView.get_queryset in bankloan/views.py). -/
def deposits_sum (entries : List BankAccountLedger) : ℚ :=
  ((entries.filter (fun e => e.entry_type == BankEntryType.deposit)).map
    (fun e => e.amount)).sum

/-- Sum of withdrawal amounts in a list of entries (the
`total_withdrawals` aggregate of BankAccountLedgerListView.get_queryset). -/
def withdrawals_sum (entries : List BankAccountLedger) : ℚ :=
  ((entries.filter (fun e => e.entry_type == BankEntryType.withdrawal)).map
    (fun e => e.amount)).sum

/-- Total deposits of an account. -/
def total_deposits (a : BankAccount) : ℚ := deposits_sum a.ledger_entries

/-- Total withdrawals of an account. -/
def total_withdrawals (a : BankAccount) : ℚ := withdrawals_sum a.ledger_entries

/-- Current balance of a bank account
(bankloan/views.py, BankAccountLedgerListView.get_context_data:
`acc.balance = acc.opening_balance + acc.total_deposits -
acc.total_withdrawals`). -/
def account_balance (a : BankAccount) : ℚ :=
  a.opening_balance + total_deposits a - total_withdrawals a

/-- Ascending (transaction_date, id) comparison used to order the running
ledger (bankloan/views.py, BankAccountTransactionLedgerView:
`.order_by('transaction_date', 'id')`). -/
def bank_entry_key_le (a b : BankAccountLedger) : Bool :=
  decide (a.transaction_date < b.transaction_date ∨
    (a.transaction_date = b.transaction_date ∧ a.id ≤ b.id))

/-- The account's entries in ascending (date, id) order. -/
def sorted_ledger_entries (a : BankAccount) : List BankAccountLedger :=
  a.ledger_entries.mergeSort bank_entry_key_le

/-- Signed effect of one entry on the running balance: deposits add their
amount, withdrawals subtract it. -/
def bank_signed (e : BankAccountLedger) : ℚ :=
  if e.entry_type == BankEntryType.deposit then e.amount else -e.amount

/-- The running-balance loop of
BankAccountTransactionLedgerView.get_context_data (bankloan/views.py):
starting from the given balance, each entry produces a row carrying the
balance after it (previous + amount for a deposit, previous − amount
otherwise). -/
def ledger_rows_from (running : ℚ) : List BankAccountLedger → List (BankAccountLedger × ℚ)
  | [] => []
  | e :: es =>
      (e, running + bank_signed e) :: ledger_rows_from (running + bank_signed e) es

/-- The running-balance series of an account: the loop applied to the
entries in ascending (date, id) order starting from the opening balance. -/
def ledger_rows (a : BankAccount) : List (BankAccountLedger × ℚ) :=
  ledger_rows_from a.opening_balance (sorted_ledger_entries a)

/-- Balance carried by the last row of the running series, or the opening
balance when the account has no entries. -/
def final_running_balance (a : BankAccount) : ℚ :=
  (((ledger_rows a).getLast?).map (fun r => r.2)).getD a.opening_balance

/-- The last balance produced by the running-balance loop is its start
value plus the signed sum of the walked entries. -/
theorem ledger_rows_from_last (entries : List BankAccountLedger) (b : ℚ) :
    (((ledger_rows_from b entries).getLast?).map (fun r => r.2)).getD b =
      b + (entries.map bank_signed).sum := by
  induction entries generalizing b with
  | nil => simp [ledger_rows_from]
  | cons e es ih =>
      cases es with
      | nil => simp [ledger_rows_from]
      | cons e' es' =>
          have hunf : ledger_rows_from b (e :: e' :: es') =
              (e, b + bank_signed e) :: ledger_rows_from (b + bank_signed e) (e' :: es') := rfl
          have hcons : ledger_rows_from (b + bank_signed e) (e' :: es') =
              (e', b + bank_signed e + bank_signed e') ::
                ledger_rows_from (b + bank_signed e + bank_signed e') es' := rfl
          rcases hlast : (ledger_rows_from (b + bank_signed e) (e' :: es')).getLast?
            with _ | r
          · rw [hcons] at hlast
            simp [List.getLast?_eq_none_iff] at hlast
          · have hih := ih (b + bank_signed e)
            rw [hlast] at hih
            simp only [Option.map_some', Option.getD_some] at hih
            have hgl : (ledger_rows_from b (e :: e' :: es')).getLast? = some r := by
              rw [hunf, hcons, List.getLast?_cons_cons, ← hcons, hlast]
            rw [hgl]
            simp only [Option.map_some', Option.getD_some]
            rw [hih]
            simp
            ring

/-- The signed sum over a list of entries is its deposit total minus its
withdrawal total. -/
theorem signed_sum_eq (entries : List BankAccountLedger) :
    (entries.map bank_signed).sum = deposits_sum entries - withdrawals_sum entries := by
  induction entries with
  | nil => simp [deposits_sum, withdrawals_sum]
  | cons e es ih =>
      rcases he : e.entry_type with _ | _ <;>
        · simp [deposits_sum, withdrawals_sum, bank_signed, he] at ih ⊢
          rw [ih]
          ring

/-- C8: the current balance of a bank account is its opening balance plus
total deposits minus total withdrawals; the running-balance series walks
the entries in ascending (date, id) order producing for each entry
balanceAfter = previous + amount for a deposit and previous − amount for a
withdrawal; and the final balanceAfter equals the current balance. -/
theorem bank_running_balance_spec (a : BankAccount) (b : ℚ) (e : BankAccountLedger)
    (es : List BankAccountLedger) :
    account_balance a = a.opening_balance + total_deposits a - total_withdrawals a ∧
    ledger_rows_from b (e :: es) =
      (e, if e.entry_type == BankEntryType.deposit then b + e.amount else b - e.amount) ::
        ledger_rows_from
          (if e.entry_type == BankEntryType.deposit then b + e.amount else b - e.amount) es ∧
    final_running_balance a = account_balance a := by
  have hstep : b + bank_signed e =
      if e.entry_type == BankEntryType.deposit then b + e.amount else b - e.amount := by
    unfold bank_signed
    rcases e.entry_type with _ | _
    · simp
    · simp
      ring
  refine ⟨rfl, by rw [ledger_rows_from, hstep], ?_⟩
  unfold final_running_balance ledger_rows
  rw [ledger_rows_from_last]
  have hperm : ((sorted_ledger_entries a).map bank_signed).Perm
      (a.ledger_entries.map bank_signed) :=
    (List.mergeSort_perm a.ledger_entries bank_entry_key_le).map bank_signed
  rw [hperm.sum_eq, signed_sum_eq]
  unfold account_balance total_deposits total_withdrawals
  ring
